import Mathlib

/-!
Shallow embedding of `src/earthquake-app.py` (an NSE live-turnover tracker):
the quote fetcher `fetch_single`, the memoized orchestrator `fetch_data`
(with the semantics of the surrounding `st.cache_data` wrapper), the snapshot
scheduler `is_today_saved` / `should_store_if_missed` and its call site, the
history store `save_daily_history` / `load_history` (with the relevant
`pandas` behaviours), and the comparison merge `comparison_df`.

Numeric fields are modelled as rationals; a missing value is `none`
(Python `None` / pandas `NaN`).  Where pandas float arithmetic can produce
infinities or NaN (the comparison column), values live in `PFloat`, an
explicit extended domain with IEEE-style propagation rules.
-/

namespace EarthquakeApp

/-! ### Quote fetcher (`fetch_single`, lines 67-138) -/

/-- The `priceInfo` object extracted from the upstream JSON payload.
Each field is optional: `data.get("priceInfo", {}).get(..., None)`. -/
structure PriceInfo where
  lastPrice : Option ℚ
  previousClose : Option ℚ
  totalTradedVolume : Option ℚ
  deriving DecidableEq, Repr

/-- The dictionary returned by `fetch_single`.  On success the `Error` key is
absent (`error = none`); on total failure every price field is `None` and
`Error` is set. -/
structure QuoteRecord where
  symbol : String
  current_price : Option ℚ
  previous_close : Option ℚ
  percent_change : Option ℚ
  volume : Option ℚ
  value_cr : Option ℚ
  error : Option String
  deriving DecidableEq, Repr

/-- Floor of a rational, computed directly from numerator and denominator
with flooring integer division. -/
def ratFloor (x : ℚ) : ℤ :=
  Int.fdiv x.num (x.den : ℤ)

/-- Round-half-to-even to the nearest integer, the tie-breaking rule of
Python's built-in `round`. -/
def roundHalfEven (x : ℚ) : ℤ :=
  if x - ratFloor x < 1/2 then ratFloor x
  else if (1 : ℚ)/2 < x - ratFloor x then ratFloor x + 1
  else if ratFloor x % 2 = 0 then ratFloor x else ratFloor x + 1

/-- Python's `round(x, 2)`: round to two decimal places, ties to even. -/
def pyRound2 (x : ℚ) : ℚ :=
  (roundHalfEven (x * 100) : ℚ) / 100

/-- The record built from a successful, parseable quote response
(lines 101-123): raw fields are taken from `priceInfo` with `None` defaults,
`percent_change` is guarded by `current_price is not None and previous_close
not in (None, 0)`, `value_cr` by both inputs present, and both derived fields
are rounded to two decimals.  The `Error` key is absent. -/
def mkSuccessRecord (symbol : String) (p : PriceInfo) : QuoteRecord :=
  let current_price := p.lastPrice
  let previous_close := p.previousClose
  let volume := p.totalTradedVolume
  let percent_change : Option ℚ :=
    match current_price, previous_close with
    | some cp, some pc => if pc = 0 then none else some ((cp - pc) / pc * 100)
    | _, _ => none
  let value_cr : Option ℚ :=
    match current_price, volume with
    | some cp, some v => some (cp * v / 10000000)
    | _, _ => none
  { symbol := symbol
    current_price := current_price
    previous_close := previous_close
    percent_change := percent_change.map pyRound2
    volume := volume
    value_cr := value_cr.map pyRound2
    error := none }

/-- The record returned when all retry attempts failed (lines 130-138):
every value field `None`, `Error` set to the last captured message or the
generic `"Failed to fetch"`. -/
def failRecord (symbol : String) (lastError : Option String) : QuoteRecord :=
  { symbol := symbol
    current_price := none
    previous_close := none
    percent_change := none
    volume := none
    value_cr := none
    error := some (lastError.getD "Failed to fetch") }

/-- One attempt of the retry loop: either an exception carrying its message
(network error, non-2xx via `raise_for_status`, JSON parse failure, or any
exception inside the parsing block) or a parsed payload. -/
abbrev Attempt := Except String PriceInfo

/-- Whether an attempt failed (took the `except` branch). -/
def attemptFailed : Attempt → Bool
  | Except.ok _ => false
  | Except.error _ => true

/-- The retry loop of `fetch_single` (lines 94-127), over the outcomes of the
successive attempts, threading `last_error`: the first successful attempt
returns its record immediately; exhausting the list returns the failure
record. -/
def fetch_attempts (symbol : String) : List Attempt → Option String → QuoteRecord
  | [], lastError => failRecord symbol lastError
  | Except.ok p :: _, _ => mkSuccessRecord symbol p
  | Except.error e :: rest, _ => fetch_attempts symbol rest (some e)

/-- `fetch_single(symbol)` as a function of the outcomes of its quote
attempts (the code performs exactly 3; the warm-up request on the homepage
has no effect on the returned record and is omitted).  `last_error` starts
as `None`. -/
def fetch_single (symbol : String) (attempts : List Attempt) : QuoteRecord :=
  fetch_attempts symbol attempts none

example :
    fetch_single "X" [Except.error "boom", Except.error "bam", Except.error "bop"] =
      failRecord "X" (some "bop") := rfl

/-! ### Snapshot scheduler (`is_today_saved`, `should_store_if_missed`,
lines 35-61, and their call site, lines 216-221)

Calendar dates are day numbers (`Nat`), the wall-clock time of day is minutes
since midnight, and the flag file's content is `Option Nat` (`none` when
`data/last_store.txt` does not exist).  The history store, for the scheduler
claims, is the list of appended batches: `save_daily_history` appends the
whole live record set tagged with today's date. -/

/-- The 15:30 cutoff (`dtime(15, 30)`) in minutes since midnight. -/
def cutoffMinutes : Nat := 15 * 60 + 30

/-- `is_today_saved()` (lines 35-40): the flag file exists and its stripped
content equals today's date string. -/
def is_today_saved (flag : Option Nat) (today : Nat) : Bool :=
  match flag with
  | some d => d == today
  | none => false

/-- `should_store_if_missed()` (lines 46-61): returns whether to store, and
the new flag-file content.  If today is already saved it returns `False`
without touching the flag; else if the time of day is at or past 15:30 it
writes today's date into the flag file and returns `True`; else `False`.
Note the flag is written inside this helper, before any history append. -/
def should_store_if_missed (flag : Option Nat) (today minutes : Nat) :
    Bool × Option Nat :=
  if is_today_saved flag today then (false, flag)
  else if cutoffMinutes ≤ minutes then (true, some today)
  else (false, flag)

/-- `save_daily_history(df)` (lines 160-169) at the level of batches: tags
the live record set with today's date and appends it to the store. -/
def save_daily_history (history : List (Nat × List QuoteRecord))
    (df : List QuoteRecord) (today : Nat) : List (Nat × List QuoteRecord) :=
  history ++ [(today, df)]

/-- Persisted scheduler state: the flag file and the appended history. -/
structure SchedState where
  flag : Option Nat
  history : List (Nat × List QuoteRecord)
  deriving DecidableEq

/-- The scheduler evaluation at the call site (lines 219-221):
`if should_store_if_missed(): save_daily_history(df)`. -/
def run_cycle (s : SchedState) (today minutes : Nat) (df : List QuoteRecord) :
    SchedState :=
  let r := should_store_if_missed s.flag today minutes
  if r.fst then
    { flag := r.snd, history := save_daily_history s.history df today }
  else
    { flag := r.snd, history := s.history }

/-- Outcome of one scheduler evaluation when the history write may fail:
the resulting persisted state and whether an exception propagated. -/
structure CycleResult where
  state : SchedState
  raised : Bool
  deriving DecidableEq

/-- The same call site when `save_daily_history` may raise (disk write
failure).  `should_store_if_missed` has already written the flag by the time
`save_daily_history` runs; the call site wraps neither in try/except, so a
write failure propagates with the flag already set and the history
unchanged. -/
def run_cycle_fallible (s : SchedState) (today minutes : Nat)
    (df : List QuoteRecord) (saveOk : Bool) : CycleResult :=
  let r := should_store_if_missed s.flag today minutes
  if r.fst then
    if saveOk then
      { state := { flag := r.snd, history := save_daily_history s.history df today }
        raised := false }
    else
      { state := { flag := r.snd, history := s.history }, raised := true }
  else
    { state := { flag := r.snd, history := s.history }, raised := false }

/-! ### History store (`load_history`, lines 172-188)

The on-disk CSV is modelled at the granularity `load_history` reads it:
either the file is absent (`none`), or it is a zero-byte file (`blank`), or
it parses to a table with a column list and rows.  Each row carries its
`Date` value (day number, meaningful when the `"Date"` column is present)
and an opaque payload standing for the remaining fields.
`pd.read_csv` raises `EmptyDataError` on a file with no data to parse;
on a header-only file it yields a table with columns and no rows. -/

/-- Decidable equality of fallible results, so that concrete evaluations of
`load_history` can be checked by `decide`. -/
instance {ε α : Type} [DecidableEq ε] [DecidableEq α] : DecidableEq (Except ε α) :=
  fun a b =>
    match a, b with
    | Except.ok x, Except.ok y =>
      if h : x = y then isTrue (by rw [h])
      else isFalse (fun hc => h (by cases hc; rfl))
    | Except.error x, Except.error y =>
      if h : x = y then isTrue (by rw [h])
      else isFalse (fun hc => h (by cases hc; rfl))
    | Except.ok _, Except.error _ => isFalse (fun hc => Except.noConfusion hc)
    | Except.error _, Except.ok _ => isFalse (fun hc => Except.noConfusion hc)

/-- One parsed row of `data/history.csv`. -/
structure HistRow where
  date : Int
  payload : String
  deriving DecidableEq

/-- A history file that exists on disk: zero-byte, or a parsed table. -/
inductive HistFile
  | blank : HistFile
  | table : List String → List HistRow → HistFile
  deriving DecidableEq

/-- `df_hist["Date"].max()` over a nonempty row list. -/
def maxDate : List HistRow → Int
  | [] => 0
  | r :: rs => (rs.map HistRow.date).foldl max r.date

/-- `load_history()` (lines 172-188): absent file → empty frame; file
present but zero-byte → `pd.read_csv` raises `EmptyDataError`; no `"Date"`
column → empty frame; no rows → empty frame; otherwise keep the rows with
`Date >= max(Date) - 20 days`. -/
def load_history (file : Option HistFile) : Except String (List HistRow) :=
  match file with
  | none => Except.ok []
  | some HistFile.blank => Except.error "EmptyDataError: No columns to parse from file"
  | some (HistFile.table cols rows) =>
    if "Date" ∈ cols then
      if rows.isEmpty then Except.ok []
      else Except.ok (rows.filter (fun r => decide (maxDate rows - 20 ≤ r.date)))
    else Except.ok []

/-! ### Fetch orchestrator (`fetch_data`, lines 144-154)

`fetch_data` is wrapped in `@st.cache_data(ttl=10)`.  Within one TTL window
the wrapper first looks the symbol list up in the cache and returns a hit
without running the body; on a miss it runs the body and then stores the
returned frame in the cache.  `fetch_data.clear()` empties the whole cache
at the moment it is called — but the wrapper's store of the fresh result
happens after the body returns, so a value computed by the very call that
cleared the cache is cached anyway. -/

/-- The frame built by `pd.DataFrame(results)`. -/
abbrev Frame := List QuoteRecord

/-- The memo cache of `st.cache_data` within one TTL window, keyed by the
exact input symbol list. -/
abbrev Cache := List (List String × Frame)

/-- Cache lookup for a symbol list. -/
def lookupCache (c : Cache) (key : List String) : Option Frame :=
  match c.find? (fun e => e.fst == key) with
  | some e => some e.snd
  | none => none

/-- `df["Current Price"].isna().all()` (line 151). -/
def allPricesMissing (df : Frame) : Bool :=
  df.all (fun r => r.current_price == none)

/-- Result of one `fetch_data(symbols)` call: the returned frame, the cache
afterwards, and whether the upstream fetch actually ran (cache miss). -/
structure FetchCall where
  result : Frame
  cache : Cache
  fetched : Bool
  deriving DecidableEq

/-- One `fetch_data(symbols)` call within the TTL window (lines 144-154),
with `net` giving each symbol's fetched record.  On a cache hit the body
does not run.  On a miss the body maps `fetch_single` over the symbols; if
every `Current Price` is absent it calls `fetch_data.clear()`, emptying the
cache; then (comment notwithstanding) it returns the frame without raising,
and the `st.cache_data` wrapper stores the returned frame under the symbol
list. -/
def fetch_data (cache : Cache) (symbols : List String)
    (net : String → QuoteRecord) : FetchCall :=
  match lookupCache cache symbols with
  | some df => { result := df, cache := cache, fetched := false }
  | none =>
    let df := symbols.map net
    let cacheAfterBody := if allPricesMissing df then [] else cache
    { result := df, cache := (symbols, df) :: cacheAfterBody, fetched := true }

/-! ### Comparison merge (`comparison_df`, lines 243-255)

The comparison column is computed by pandas float arithmetic, where a
missing value is NaN and division can produce signed infinities.  `PFloat`
is that value domain: NaN, +inf, -inf, or a finite number. -/

/-- A pandas float cell: NaN (also the missing value), an infinity, or a
finite value. -/
inductive PFloat
  | nan : PFloat
  | posInf : PFloat
  | negInf : PFloat
  | num : ℚ → PFloat
  deriving DecidableEq

/-- A possibly missing rational as a pandas cell. -/
def toPFloat : Option ℚ → PFloat
  | none => PFloat.nan
  | some q => PFloat.num q

/-- pandas/IEEE subtraction. -/
def psub : PFloat → PFloat → PFloat
  | PFloat.nan, _ => PFloat.nan
  | _, PFloat.nan => PFloat.nan
  | PFloat.num a, PFloat.num b => PFloat.num (a - b)
  | PFloat.num _, PFloat.posInf => PFloat.negInf
  | PFloat.num _, PFloat.negInf => PFloat.posInf
  | PFloat.posInf, PFloat.num _ => PFloat.posInf
  | PFloat.negInf, PFloat.num _ => PFloat.negInf
  | PFloat.posInf, PFloat.posInf => PFloat.nan
  | PFloat.posInf, PFloat.negInf => PFloat.posInf
  | PFloat.negInf, PFloat.posInf => PFloat.negInf
  | PFloat.negInf, PFloat.negInf => PFloat.nan

/-- pandas/IEEE division (no signed zeros in ℚ, so `x / 0` follows the sign
of `x` alone, as numpy does for a positive zero divisor). -/
def pdiv : PFloat → PFloat → PFloat
  | PFloat.nan, _ => PFloat.nan
  | _, PFloat.nan => PFloat.nan
  | PFloat.num a, PFloat.num b =>
    if b = 0 then
      if 0 < a then PFloat.posInf
      else if a < 0 then PFloat.negInf
      else PFloat.nan
    else PFloat.num (a / b)
  | PFloat.num _, PFloat.posInf => PFloat.num 0
  | PFloat.num _, PFloat.negInf => PFloat.num 0
  | PFloat.posInf, PFloat.num b => if b < 0 then PFloat.negInf else PFloat.posInf
  | PFloat.negInf, PFloat.num b => if b < 0 then PFloat.posInf else PFloat.negInf
  | PFloat.posInf, PFloat.posInf => PFloat.nan
  | PFloat.posInf, PFloat.negInf => PFloat.nan
  | PFloat.negInf, PFloat.posInf => PFloat.nan
  | PFloat.negInf, PFloat.negInf => PFloat.nan

/-- pandas/IEEE multiplication. -/
def pmul : PFloat → PFloat → PFloat
  | PFloat.nan, _ => PFloat.nan
  | _, PFloat.nan => PFloat.nan
  | PFloat.num a, PFloat.num b => PFloat.num (a * b)
  | PFloat.posInf, PFloat.num b =>
    if 0 < b then PFloat.posInf else if b < 0 then PFloat.negInf else PFloat.nan
  | PFloat.negInf, PFloat.num b =>
    if 0 < b then PFloat.negInf else if b < 0 then PFloat.posInf else PFloat.nan
  | PFloat.num a, PFloat.posInf =>
    if 0 < a then PFloat.posInf else if a < 0 then PFloat.negInf else PFloat.nan
  | PFloat.num a, PFloat.negInf =>
    if 0 < a then PFloat.negInf else if a < 0 then PFloat.posInf else PFloat.nan
  | PFloat.posInf, PFloat.posInf => PFloat.posInf
  | PFloat.posInf, PFloat.negInf => PFloat.negInf
  | PFloat.negInf, PFloat.posInf => PFloat.negInf
  | PFloat.negInf, PFloat.negInf => PFloat.posInf

/-- The `"Turnover vs Avg (%)"` formula (lines 252-255):
`(Value - Avg) / Avg * 100` in pandas float arithmetic. -/
def turnover_vs_avg (value avg : PFloat) : PFloat :=
  pmul (pdiv (psub value avg) avg) (PFloat.num 100)

/-- The per-symbol average table produced by the groupby (lines 243-248),
as an association list, and its left-join lookup. -/
def avg_lookup (avgs : List (String × ℚ)) (sym : String) : Option ℚ :=
  match avgs.find? (fun e => e.fst == sym) with
  | some e => some e.snd
  | none => none

/-- One row of the merged comparison frame. -/
structure ComparisonRow where
  record : QuoteRecord
  avg20 : PFloat
  turnoverVsAvg : PFloat
  deriving DecidableEq

/-- `comparison_df` (lines 250-255): left-join the live frame with the
per-symbol averages (a missing average is NaN) and compute the comparison
column. -/
def comparison_df (df : Frame) (avgs : List (String × ℚ)) : List ComparisonRow :=
  df.map (fun r =>
    let avg := toPFloat (avg_lookup avgs r.symbol)
    { record := r, avg20 := avg
      turnoverVsAvg := turnover_vs_avg (toPFloat r.value_cr) avg })

/-! ### Saved column layout (`save_daily_history` and the on-disk header)

`pd.DataFrame(results)` takes its columns from the union of the result
dictionaries' keys, in order of first appearance: a record whose fetch
succeeded contributes six keys, a failed one also contributes `"Error"`
(lines 116-123 and 130-138).  `save_daily_history` then adds `"Date"` as the
last column before writing (lines 160-169). -/

/-- The keys of the dictionary `fetch_single` returned for one record. -/
def record_keys (r : QuoteRecord) : List String :=
  ["Symbol", "Current Price", "Previous Close", "Percent Change (%)",
    "Volume", "Value (Cr)"] ++
    (match r.error with
     | some _ => ["Error"]
     | none => [])

/-- Append a key if it has not appeared yet. -/
def insertNew (acc : List String) (k : String) : List String :=
  if k ∈ acc then acc else acc ++ [k]

/-- The column list of `pd.DataFrame(results)`: union of the records' keys
in order of first appearance. -/
def frame_columns (rs : List QuoteRecord) : List String :=
  rs.foldl (fun acc r => (record_keys r).foldl insertNew acc) []

/-- The columns `save_daily_history` writes for a record set: the frame's
columns with `"Date"` appended. -/
def saved_columns (rs : List QuoteRecord) : List String :=
  frame_columns rs ++ ["Date"]

/-- The seven-column on-disk contract of the history store. -/
def contractColumns : List String :=
  ["Symbol", "Current Price", "Previous Close", "Percent Change (%)",
    "Volume", "Value (Cr)", "Date"]

/-! ### Concrete inputs used by witnesses and counterexamples -/

/-- The watchlist (lines 20-23). -/
def stocks : List String :=
  ["RELIANCE", "TCS", "HDFCBANK", "INFY", "ICICIBANK",
    "SBIN", "BHARTIARTL", "KOTAKBANK", "LT", "ITC"]

/-- An upstream where every symbol's three quote attempts fail. -/
def failNet : String → QuoteRecord :=
  fun s => failRecord s (some "HTTPError")

/-- A live record of a symbol whose fetch succeeded. -/
def okRecordRELIANCE : QuoteRecord :=
  { symbol := "RELIANCE", current_price := some 2900, previous_close := some 2850
    percent_change := some (175/100), volume := some 1000000, value_cr := some 290
    error := none }

/-- A live record with turnover 100 Cr, used against a zero average. -/
def liveRecordX : QuoteRecord :=
  { symbol := "X", current_price := some 100, previous_close := some 90
    percent_change := some 11, volume := some 10000, value_cr := some 100
    error := none }

/-- History rows dated day 1 through day 25, one per day. -/
def histRows25 : List HistRow :=
  (List.range 25).map (fun i => { date := (i : Int) + 1, payload := "r" })

/-- The history store holding `histRows25` under the contract header. -/
def histStore25 : Option HistFile :=
  some (HistFile.table contractColumns histRows25)

/-- The rows of `histRows25` dated day 5 through day 25. -/
def window5to25 : List HistRow :=
  (List.range 21).map (fun i => { date := (i : Int) + 5, payload := "r" })

/-- The rows of `histRows25` dated day 6 through day 25. -/
def window6to25 : List HistRow :=
  (List.range 20).map (fun i => { date := (i : Int) + 6, payload := "r" })

/-! ## Helper lemmas -/

theorem is_today_saved_false {flag : Option Nat} {d : Nat} (h : flag ≠ some d) :
    is_today_saved flag d = false := by
  cases flag with
  | none => rfl
  | some e =>
    simp only [is_today_saved, beq_eq_false_iff_ne, ne_eq]
    intro he
    exact h (by rw [he])

theorem is_today_saved_self (d : Nat) : is_today_saved (some d) d = true := by
  simp [is_today_saved]

theorem should_store_fires {flag : Option Nat} {d t : Nat}
    (h0 : flag ≠ some d) (ht : cutoffMinutes ≤ t) :
    should_store_if_missed flag d t = (true, some d) := by
  unfold should_store_if_missed
  rw [is_today_saved_false h0]
  simp [ht]

theorem should_store_noop (d t : Nat) :
    should_store_if_missed (some d) d t = (false, some d) := by
  unfold should_store_if_missed
  rw [is_today_saved_self]
  simp

theorem run_cycle_fires {s : SchedState} {d t : Nat} (df : List QuoteRecord)
    (h0 : s.flag ≠ some d) (ht : cutoffMinutes ≤ t) :
    run_cycle s d t df =
      { flag := some d, history := s.history ++ [(d, df)] } := by
  simp [run_cycle, should_store_fires h0 ht, save_daily_history]

theorem run_cycle_noop {s : SchedState} {d : Nat} (t : Nat) (df : List QuoteRecord)
    (hs : s.flag = some d) :
    run_cycle s d t df = s := by
  cases s with
  | mk flag history =>
    cases hs
    simp [run_cycle, should_store_noop]

theorem fetch_attempts_error_of_all_failed (s : String) :
    ∀ (atts : List Attempt) (le : Option String),
      (∀ a ∈ atts, attemptFailed a = true) →
      (fetch_attempts s atts le).error ≠ none := by
  intro atts
  induction atts with
  | nil =>
    intro le _
    simp [fetch_attempts, failRecord]
  | cons a rest ih =>
    intro le h
    cases a with
    | ok p =>
      have hp := h (Except.ok p) (List.mem_cons_self _ _)
      simp [attemptFailed] at hp
    | error e =>
      exact ih (some e) (fun x hx => h x (List.mem_cons_of_mem _ hx))

theorem fetch_attempts_first_ok (s : String) (p : PriceInfo) :
    ∀ (pre rest : List Attempt) (le : Option String),
      (∀ a ∈ pre, attemptFailed a = true) →
      fetch_attempts s (pre ++ Except.ok p :: rest) le = mkSuccessRecord s p := by
  intro pre
  induction pre with
  | nil =>
    intro rest le _
    rfl
  | cons a pre ih =>
    intro rest le h
    cases a with
    | ok q =>
      have hq := h (Except.ok q) (List.mem_cons_self _ _)
      simp [attemptFailed] at hq
    | error e =>
      exact ih rest (some e) (fun x hx => h x (List.mem_cons_of_mem _ hx))

theorem exists_first_ok :
    ∀ (atts : List Attempt), (¬ ∀ a ∈ atts, attemptFailed a = true) →
      ∃ pre p rest, atts = pre ++ Except.ok p :: rest ∧
        ∀ a ∈ pre, attemptFailed a = true := by
  intro atts
  induction atts with
  | nil =>
    intro h
    exact absurd (fun a ha => absurd ha (List.not_mem_nil a)) h
  | cons a rest ih =>
    intro h
    cases a with
    | ok p =>
      exact ⟨[], p, rest, rfl, fun x hx => absurd hx (List.not_mem_nil x)⟩
    | error e =>
      have hr : ¬ ∀ a ∈ rest, attemptFailed a = true := by
        intro hall
        apply h
        intro x hx
        rcases List.mem_cons.mp hx with h1 | h2
        · rw [h1]; rfl
        · exact hall x h2
      rcases ih hr with ⟨pre, p, rst, heq, hpre⟩
      refine ⟨Except.error e :: pre, p, rst, by rw [heq, List.cons_append], ?_⟩
      intro x hx
      rcases List.mem_cons.mp hx with h1 | h2
      · rw [h1]; rfl
      · exact hpre x h2

theorem fetch_attempts_shape (s : String) :
    ∀ (atts : List Attempt) (le : Option String),
      (∃ e, fetch_attempts s atts le = failRecord s e) ∨
      (∃ p, fetch_attempts s atts le = mkSuccessRecord s p) := by
  intro atts
  induction atts with
  | nil =>
    intro le
    exact Or.inl ⟨le, rfl⟩
  | cons a rest ih =>
    intro le
    cases a with
    | ok p => exact Or.inr ⟨p, rfl⟩
    | error e => exact ih (some e)

theorem mkSuccessRecord_derived_laws (s : String) (p : PriceInfo) :
    ((mkSuccessRecord s p).percent_change = none ↔
      (mkSuccessRecord s p).current_price = none ∨
      (mkSuccessRecord s p).previous_close = none ∨
      (mkSuccessRecord s p).previous_close = some 0) ∧
    (∀ cp pc, (mkSuccessRecord s p).current_price = some cp →
      (mkSuccessRecord s p).previous_close = some pc → pc ≠ 0 →
      (mkSuccessRecord s p).percent_change =
        some (pyRound2 ((cp - pc) / pc * 100))) ∧
    ((mkSuccessRecord s p).value_cr = none ↔
      (mkSuccessRecord s p).current_price = none ∨
      (mkSuccessRecord s p).volume = none) ∧
    (∀ cp v, (mkSuccessRecord s p).current_price = some cp →
      (mkSuccessRecord s p).volume = some v →
      (mkSuccessRecord s p).value_cr = some (pyRound2 (cp * v / 10000000))) := by
  rcases p with ⟨lp, pcv, vol⟩
  cases lp with
  | none => simp [mkSuccessRecord]
  | some cp0 =>
    cases pcv with
    | none =>
      cases vol with
      | none => simp [mkSuccessRecord]
      | some v0 => simp [mkSuccessRecord]
    | some pc0 =>
      by_cases hz : pc0 = 0
      · subst hz
        cases vol with
        | none => simp [mkSuccessRecord]
        | some v0 => simp [mkSuccessRecord]
      · cases vol with
        | none => simp [mkSuccessRecord, hz]
        | some v0 => simp [mkSuccessRecord, hz]

/-! ## Claim theorems -/

/-- Claim C1 (confirmed): starting a calendar day unsaved, evaluating the
scheduler transition twice on that day at or after the 15:30 cutoff appends
the live record set to the history store exactly once, the flag then holds
that day's date, and the second evaluation changes nothing. -/
theorem scheduler_idempotent (s : SchedState) (d t1 t2 : Nat)
    (df1 df2 : List QuoteRecord)
    (h0 : s.flag ≠ some d) (h1 : cutoffMinutes ≤ t1) (h2 : cutoffMinutes ≤ t2) :
    (run_cycle (run_cycle s d t1 df1) d t2 df2).history =
      s.history ++ [(d, df1)] ∧
    (run_cycle s d t1 df1).flag = some d ∧
    run_cycle (run_cycle s d t1 df1) d t2 df2 = run_cycle s d t1 df1 := by
  rw [run_cycle_fires df1 h0 h1]
  rw [run_cycle_noop t2 df2 rfl]
  exact ⟨rfl, rfl, rfl⟩

/-- Witness for C1: a concrete unsaved day, with two evaluations at 15:30
and 15:40. -/
theorem scheduler_idempotent_witness :
    (run_cycle (run_cycle ⟨none, []⟩ 1 930 [failRecord "RELIANCE" none]) 1 940
        []).history = [] ++ [(1, [failRecord "RELIANCE" none])] ∧
    (run_cycle ⟨none, []⟩ 1 930 [failRecord "RELIANCE" none]).flag = some 1 ∧
    run_cycle (run_cycle ⟨none, []⟩ 1 930 [failRecord "RELIANCE" none]) 1 940 [] =
      run_cycle ⟨none, []⟩ 1 930 [failRecord "RELIANCE" none] :=
  scheduler_idempotent ⟨none, []⟩ 1 930 940 [failRecord "RELIANCE" none] []
    (by decide) (by decide) (by decide)

/-- Counterexample for C2: at day 7, 16:00, starting unsaved, a failing
history write propagates (`raised = true`), yet the flag file already holds
day 7 while no entries were persisted — the flag records today as saved
without the entries having been persisted first. -/
theorem flag_written_before_entries_counterexample :
    (run_cycle_fallible ⟨none, []⟩ 7 960 [failRecord "RELIANCE" none] false).raised
        = true ∧
    (run_cycle_fallible ⟨none, []⟩ 7 960 [failRecord "RELIANCE" none]
        false).state.flag = some 7 ∧
    (run_cycle_fallible ⟨none, []⟩ 7 960 [failRecord "RELIANCE" none]
        false).state.history = [] := by
  decide

/-- Claim C2 (corrected): a disk-write failure during the capture step does
propagate to the caller, but the flag is written before the entries are
persisted: on a failed capture the flag already holds today's date while the
history is unchanged, and on a successful capture the outcome agrees with
the infallible transition. -/
theorem save_failure_propagates_flag_set (s : SchedState) (d t : Nat)
    (df : List QuoteRecord) (h0 : s.flag ≠ some d) (ht : cutoffMinutes ≤ t) :
    (run_cycle_fallible s d t df false).raised = true ∧
    (run_cycle_fallible s d t df false).state.flag = some d ∧
    (run_cycle_fallible s d t df false).state.history = s.history ∧
    (run_cycle_fallible s d t df true).state = run_cycle s d t df ∧
    (run_cycle_fallible s d t df true).raised = false := by
  rw [run_cycle_fires df h0 ht]
  simp [run_cycle_fallible, should_store_fires h0 ht, save_daily_history]

/-- Witness for C2's amended theorem at day 7, 16:00, empty store. -/
theorem save_failure_propagates_flag_set_witness :
    (run_cycle_fallible ⟨none, []⟩ 7 960 [okRecordRELIANCE] false).raised = true ∧
    (run_cycle_fallible ⟨none, []⟩ 7 960 [okRecordRELIANCE] false).state.flag
        = some 7 ∧
    (run_cycle_fallible ⟨none, []⟩ 7 960 [okRecordRELIANCE] false).state.history
        = (⟨none, []⟩ : SchedState).history ∧
    (run_cycle_fallible ⟨none, []⟩ 7 960 [okRecordRELIANCE] true).state =
      run_cycle ⟨none, []⟩ 7 960 [okRecordRELIANCE] ∧
    (run_cycle_fallible ⟨none, []⟩ 7 960 [okRecordRELIANCE] true).raised = false :=
  save_failure_propagates_flag_set ⟨none, []⟩ 7 960 [okRecordRELIANCE]
    (by decide) (by decide)

/-- Claim C10 (confirmed): past the cutoff on an unsaved day, the capture
fires for every live record set — its content is never consulted — the flag
is set to today, and any further evaluation that day is a no-op, so an
all-failed snapshot becomes the day's permanent history with no retry. -/
theorem scheduler_ignores_record_content (s : SchedState) (d t : Nat)
    (df : List QuoteRecord)
    (h0 : s.flag ≠ some d) (ht : cutoffMinutes ≤ t) :
    (run_cycle s d t df).history = s.history ++ [(d, df)] ∧
    (run_cycle s d t df).flag = some d ∧
    ∀ t2 df2, run_cycle (run_cycle s d t df) d t2 df2 = run_cycle s d t df := by
  rw [run_cycle_fires df h0 ht]
  refine ⟨rfl, rfl, fun t2 df2 => ?_⟩
  exact run_cycle_noop t2 df2 rfl

/-- Witness for C10: an all-failed record set (every record has `Error` set
and all price fields absent) is stored as day 3's history. -/
theorem scheduler_ignores_record_content_witness :
    allPricesMissing [failRecord "RELIANCE" (some "timed out"), failRecord "TCS" none]
        = true ∧
    ((run_cycle ⟨none, []⟩ 3 931
        [failRecord "RELIANCE" (some "timed out"), failRecord "TCS" none]).history =
      [] ++ [(3, [failRecord "RELIANCE" (some "timed out"), failRecord "TCS" none])] ∧
    (run_cycle ⟨none, []⟩ 3 931
        [failRecord "RELIANCE" (some "timed out"), failRecord "TCS" none]).flag
        = some 3 ∧
    ∀ t2 df2, run_cycle (run_cycle ⟨none, []⟩ 3 931
        [failRecord "RELIANCE" (some "timed out"), failRecord "TCS" none]) 3 t2 df2 =
      run_cycle ⟨none, []⟩ 3 931
        [failRecord "RELIANCE" (some "timed out"), failRecord "TCS" none]) :=
  ⟨by decide,
    scheduler_ignores_record_content ⟨none, []⟩ 3 931
      [failRecord "RELIANCE" (some "timed out"), failRecord "TCS" none]
      (by decide) (by decide)⟩

set_option maxRecDepth 4000

/-- Counterexample for C3: on a store with one entry per day for days 1..25,
`load_history` does not return exactly the entries dated 6..25. -/
theorem load_history_window_counterexample :
    load_history histStore25 ≠ Except.ok window6to25 := by
  decide

/-- Claim C3 (corrected): on a store with entries dated days 1..25,
`load_history` returns exactly the entries dated 5..25 — the filter keeps
every entry with date at least `max - 20`, both endpoints included, the
window anchored to the maximum stored date (no wall-clock input exists). -/
theorem load_history_window_5_to_25 :
    load_history histStore25 = Except.ok window5to25 := by
  decide

/-- Counterexample for C7: a history file that exists but is empty
(zero bytes) makes `pd.read_csv`, and hence `load_history`, raise rather
than return an empty result. -/
theorem load_history_blank_file_raises :
    load_history (some HistFile.blank) =
      Except.error "EmptyDataError: No columns to parse from file" := rfl

/-- Claim C7 (corrected): `load_history` returns an empty result, without
raising, when the store file is absent, when the stored table lacks the
`Date` column, and when the table has no rows; a zero-byte store file
instead raises a parse error. -/
theorem load_history_empty_cases :
    load_history none = Except.ok [] ∧
    (∀ cols rows, "Date" ∉ cols →
      load_history (some (HistFile.table cols rows)) = Except.ok []) ∧
    (∀ cols, load_history (some (HistFile.table cols [])) = Except.ok []) := by
  refine ⟨rfl, ?_, ?_⟩
  · intro cols rows h
    simp [load_history, h]
  · intro cols
    by_cases h : "Date" ∈ cols <;> simp [load_history, h]

/-- Witness for C7's amended theorem: a one-row table whose header lacks the
`Date` column loads as the empty frame. -/
theorem load_history_empty_cases_witness :
    load_history (some (HistFile.table ["Symbol"] [{ date := 3, payload := "r" }]))
        = Except.ok [] :=
  load_history_empty_cases.2.1 ["Symbol"] [{ date := 3, payload := "r" }] (by decide)

/-- Claim C6 (code bug): a freshly computed all-failed result set does clear
the memo inside the body, but the `st.cache_data` wrapper stores the
returned frame afterwards, so the entry for the symbol list is present
again; the next call within the TTL is a cache hit that serves the
all-failed frame without re-fetching. -/
theorem total_failure_result_still_served_from_cache :
    allPricesMissing (stocks.map failNet) = true ∧
    (fetch_data [] stocks failNet).fetched = true ∧
    (fetch_data [] stocks failNet).cache = [(stocks, stocks.map failNet)] ∧
    (fetch_data (fetch_data [] stocks failNet).cache stocks failNet).fetched
        = false ∧
    (fetch_data (fetch_data [] stocks failNet).cache stocks failNet).result =
      stocks.map failNet := by
  decide

/-- Claim C9 (code bug): an all-success record set is saved with exactly the
seven contract columns in order, but as soon as one fetch failed the frame
gains an `Error` column and the saved row layout has eight columns, breaking
the on-disk contract. -/
theorem mixed_failure_breaks_column_contract :
    saved_columns [okRecordRELIANCE] = contractColumns ∧
    saved_columns [okRecordRELIANCE, failRecord "TCS" (some "ReadTimeout")] ≠
      contractColumns ∧
    saved_columns [okRecordRELIANCE, failRecord "TCS" (some "ReadTimeout")] =
      ["Symbol", "Current Price", "Previous Close", "Percent Change (%)",
        "Volume", "Value (Cr)", "Error", "Date"] := by
  decide

/-- Counterexample for C4: the first attempt succeeds with a parseable but
empty payload (`{}` is valid JSON); the returned record has no error, yet
its price fields are not populated. -/
theorem fetch_success_without_price_counterexample :
    (fetch_single "RELIANCE"
        [Except.ok ⟨none, none, none⟩, Except.error "x", Except.error "y"]).error
        = none ∧
    (fetch_single "RELIANCE"
        [Except.ok ⟨none, none, none⟩, Except.error "x",
          Except.error "y"]).current_price = none :=
  ⟨rfl, rfl⟩

/-- Claim C4 (corrected): `fetch_single` always returns a record (failure is
encoded, never raised); over 3 attempt outcomes the record's `Error` field
is set iff every attempt failed; the first successful, parseable response is
returned immediately — whatever its position and whatever follows — as a
record with no error whose raw price fields are exactly those the response
payload carried (absent when the payload lacks them). -/
theorem fetch_single_retry_contract :
    (∀ s atts, atts.length = 3 →
      (((fetch_single s atts).error ≠ none) ↔
        ∀ a ∈ atts, attemptFailed a = true)) ∧
    (∀ s pre p rest, (∀ a ∈ pre, attemptFailed a = true) →
      fetch_single s (pre ++ Except.ok p :: rest) = mkSuccessRecord s p) ∧
    (∀ s p, (mkSuccessRecord s p).error = none ∧
      (mkSuccessRecord s p).current_price = p.lastPrice ∧
      (mkSuccessRecord s p).previous_close = p.previousClose ∧
      (mkSuccessRecord s p).volume = p.totalTradedVolume) := by
  refine ⟨?_, ?_, ?_⟩
  · intro s atts _
    constructor
    · intro hne
      by_contra hnot
      rcases exists_first_ok atts hnot with ⟨pre, p, rest, heq, hpre⟩
      rw [heq] at hne
      rw [show fetch_single s (pre ++ Except.ok p :: rest) = mkSuccessRecord s p
        from fetch_attempts_first_ok s p pre rest none hpre] at hne
      exact hne rfl
    · intro hall
      exact fetch_attempts_error_of_all_failed s atts none hall
  · intro s pre p rest hpre
    exact fetch_attempts_first_ok s p pre rest none hpre
  · intro s p
    exact ⟨rfl, rfl, rfl, rfl⟩

/-- Witness for C4's amended theorem: the second of three attempts succeeds
and its payload is returned unchanged. -/
theorem fetch_single_retry_contract_witness :
    fetch_single "RELIANCE"
        [Except.error "connection reset",
          Except.ok ⟨some 2900, some 2850, some 1000000⟩, Except.error "late"] =
      mkSuccessRecord "RELIANCE" ⟨some 2900, some 2850, some 1000000⟩ :=
  fetch_single_retry_contract.2.1 "RELIANCE" [Except.error "connection reset"]
    ⟨some 2900, some 2850, some 1000000⟩ [Except.error "late"] (by decide)

/-- Counterexample for C5: with `lastPrice = 1`, `previousClose = 3`,
`volume = 1`, the stored `percent_change` is the two-decimal rounding
`-66.67`, not `(1 - 3) / 3 * 100 = -200/3`, and the stored `value_cr` is
`0.0`, not `1 * 1 / 10000000`. -/
theorem fetch_derived_rounding_counterexample :
    (fetch_single "RELIANCE" [Except.ok ⟨some 1, some 3, some 1⟩]).percent_change ≠
      some ((1 - 3) / 3 * 100) ∧
    (fetch_single "RELIANCE" [Except.ok ⟨some 1, some 3, some 1⟩]).value_cr ≠
      some (1 * 1 / 10000000) := by
  constructor
  · show (if (3 : ℚ) = 0 then none else
        some (((1 : ℚ) - 3) / 3 * 100)).map pyRound2 ≠ some ((1 - 3) / 3 * 100)
    rw [if_neg (by norm_num : ¬ (3 : ℚ) = 0)]
    intro h
    rw [Option.map_some', Option.some.injEq, pyRound2] at h
    generalize hn : roundHalfEven (((1 : ℚ) - 3) / 3 * 100 * 100) = n at h
    rw [div_eq_iff (by norm_num : (100 : ℚ) ≠ 0)] at h
    have h2 : ((n * 3 : ℤ) : ℚ) = ((-20000 : ℤ) : ℚ) := by
      push_cast
      linarith [h]
    have h3 : n * 3 = -20000 := Int.cast_injective h2
    omega
  · show (some ((1 : ℚ) * 1 / 10000000)).map pyRound2 ≠ some (1 * 1 / 10000000)
    intro h
    rw [Option.map_some', Option.some.injEq, pyRound2] at h
    generalize hn : roundHalfEven ((1 : ℚ) * 1 / 10000000 * 100) = n at h
    rw [div_eq_iff (by norm_num : (100 : ℚ) ≠ 0)] at h
    have h2 : ((n * 100000 : ℤ) : ℚ) = ((1 : ℤ) : ℚ) := by
      push_cast
      linarith [h]
    have h3 : n * 100000 = 1 := Int.cast_injective h2
    omega

/-- Claim C5 (corrected): in every record `fetch_single` returns,
`percent_change` is absent exactly when `current_price` or `previous_close`
is absent or `previous_close` is zero, and otherwise equals
`(current_price - previous_close) / previous_close * 100` rounded to two
decimal places; `value_cr` is absent exactly when `current_price` or
`volume` is absent, and otherwise equals `current_price * volume / 10^7`
rounded to two decimal places. -/
theorem fetch_derived_field_laws (s : String) (atts : List Attempt) :
    ((fetch_single s atts).percent_change = none ↔
      (fetch_single s atts).current_price = none ∨
      (fetch_single s atts).previous_close = none ∨
      (fetch_single s atts).previous_close = some 0) ∧
    (∀ cp pc, (fetch_single s atts).current_price = some cp →
      (fetch_single s atts).previous_close = some pc → pc ≠ 0 →
      (fetch_single s atts).percent_change =
        some (pyRound2 ((cp - pc) / pc * 100))) ∧
    ((fetch_single s atts).value_cr = none ↔
      (fetch_single s atts).current_price = none ∨
      (fetch_single s atts).volume = none) ∧
    (∀ cp v, (fetch_single s atts).current_price = some cp →
      (fetch_single s atts).volume = some v →
      (fetch_single s atts).value_cr = some (pyRound2 (cp * v / 10000000))) := by
  rcases fetch_attempts_shape s atts none with ⟨e, he⟩ | ⟨p, hp⟩
  · have hs : fetch_single s atts = failRecord s e := he
    rw [hs]
    simp [failRecord]
  · have hs : fetch_single s atts = mkSuccessRecord s p := hp
    rw [hs]
    exact mkSuccessRecord_derived_laws s p

/-- Witness for C5's amended theorem: `lastPrice = 1`, `previousClose = 3`
gives the rounded percentage. -/
theorem fetch_derived_field_laws_witness :
    (fetch_single "RELIANCE" [Except.ok ⟨some 1, some 3, some 1⟩]).percent_change =
      some (pyRound2 ((1 - 3) / 3 * 100)) :=
  (fetch_derived_field_laws "RELIANCE" [Except.ok ⟨some 1, some 3, some 1⟩]).2.1
    1 3 rfl rfl (by norm_num)

/-- Counterexample for C8: a live record with turnover 100 joined against an
average of exactly zero yields `+inf` in the comparison column — an infinite
value, not an absent one. -/
theorem zero_average_gives_infinite_comparison :
    comparison_df [liveRecordX] [("X", 0)] =
      [{ record := liveRecordX, avg20 := PFloat.num 0
         turnoverVsAvg := PFloat.posInf }] ∧
    PFloat.posInf ≠ PFloat.nan := by
  constructor
  · norm_num [comparison_df, avg_lookup, liveRecordX, toPFloat, turnover_vs_avg,
      psub, pdiv, pmul, List.find?]
  · exact fun h => PFloat.noConfusion h

/-- Claim C8 (corrected): the merge computes, for every record, the
comparison `(live value - average) / average * 100`; it is NaN (absent)
whenever the average for the symbol is absent, and when the average is
exactly zero it is `+inf` for positive live value, `-inf` for negative live
value, and NaN only when the live value is zero or itself absent. -/
theorem comparison_percentage_laws :
    (∀ df avgs, comparison_df df avgs = df.map (fun r =>
      { record := r
        avg20 := toPFloat (avg_lookup avgs r.symbol)
        turnoverVsAvg := turnover_vs_avg (toPFloat r.value_cr)
          (toPFloat (avg_lookup avgs r.symbol)) })) ∧
    (∀ v, turnover_vs_avg v PFloat.nan = PFloat.nan) ∧
    (∀ q a, a ≠ 0 →
      turnover_vs_avg (PFloat.num q) (PFloat.num a) =
        PFloat.num ((q - a) / a * 100)) ∧
    (∀ q, 0 < q →
      turnover_vs_avg (PFloat.num q) (PFloat.num 0) = PFloat.posInf) ∧
    (∀ q, q < 0 →
      turnover_vs_avg (PFloat.num q) (PFloat.num 0) = PFloat.negInf) ∧
    turnover_vs_avg (PFloat.num 0) (PFloat.num 0) = PFloat.nan ∧
    turnover_vs_avg PFloat.nan (PFloat.num 0) = PFloat.nan := by
  refine ⟨fun df avgs => rfl, ?_, ?_, ?_, ?_, ?_, ?_⟩
  · intro v
    cases v <;> rfl
  · intro q a ha
    simp [turnover_vs_avg, psub, pdiv, pmul, ha]
  · intro q hq
    norm_num [turnover_vs_avg, psub, pdiv, pmul, hq]
  · intro q hq
    norm_num [turnover_vs_avg, psub, pdiv, pmul, hq, not_lt_of_lt hq]
  · norm_num [turnover_vs_avg, psub, pdiv, pmul]
  · rfl

/-- Witness for C8's amended theorem: live value 100 against average 80
gives `(100 - 80) / 80 * 100`. -/
theorem comparison_percentage_laws_witness :
    turnover_vs_avg (PFloat.num 100) (PFloat.num 80) =
      PFloat.num ((100 - 80) / 80 * 100) :=
  comparison_percentage_laws.2.2.1 100 80 (by norm_num)

end EarthquakeApp
